import Mathlib

/-!
Shallow embedding of the dukascopy_rs historical tick downloader.

Instants in time are modelled as integer counts of nanoseconds since the Unix
epoch in UTC; the vendor library stores a calendar datetime, and the
proleptic-Gregorian conversion functions below recover its calendar fields.
Byte buffers are lists of natural numbers, each below 256.  Prices and volumes
are modelled as exact rationals: converting a u32 to floating point is exact,
widening an IEEE-754 single-precision value to double precision is exact, and
the repository's own tests compare prices against exact decimal literals.  A
panic in the Rust code, such as a failed assertion or an out-of-bounds slice
index, is modelled by the value none of an Option-typed result.
-/

namespace Dukascopy

/-- Error kinds, from error.rs: Decode for malformed fetched data, Network for
transport failures. -/
inductive Kind where
  | Decode
  | Network
deriving DecidableEq, Repr

/-- Abstract model of a reqwest transport error: an optional HTTP status code
together with an opaque identifier standing for the underlying error value. -/
structure ReqwestError where
  status : Option Nat
  id : Nat
deriving DecidableEq, Repr

/-- The boxed underlying cause stored inside an Error: either an lzma decoder
error, modelled as an opaque identifier, or a reqwest transport error. -/
inductive ErrorCause where
  | lzma (id : Nat)
  | reqwest (e : ReqwestError)
deriving DecidableEq, Repr

/-- Error from error.rs: a kind together with the boxed underlying cause. -/
structure Error where
  kind : Kind
  inner : ErrorCause
deriving DecidableEq, Repr

/-- Tick from tick.rs: a price-change event. -/
structure Tick where
  time : Int
  ask : ℚ
  bid : ℚ
  ask_volume : ℚ
  bid_volume : ℚ
deriving DecidableEq, Repr

/-- Exact rational value of the IEEE-754 single-precision number whose 32-bit
pattern is the given natural number below 2 to the 32.  Finite values, those
with exponent field below 255, are decoded exactly, and widening such a value
to double precision, as the Rust code does with the as-f64 cast, is exact.
Patterns with exponent field 255 encode infinities and NaNs, which have no
rational value and lie outside this model. -/
def f32ToRat (bits : Nat) : ℚ :=
  let sign := bits / 2147483648 % 2
  let exp := bits / 8388608 % 256
  let mant := bits % 8388608
  let mag : ℚ :=
    if exp = 0 then (mant : ℚ) / ((2 ^ 149 : ℕ) : ℚ)
    else if exp ≤ 150 then ((8388608 + mant : ℕ) : ℚ) / ((2 ^ (150 - exp) : ℕ) : ℚ)
    else ((8388608 + mant : ℕ) : ℚ) * ((2 ^ (exp - 150) : ℕ) : ℚ)
  if sign = 1 then -mag else mag

/-- Big-endian 4-byte encoding of a 32-bit value, most significant byte
first; used to state round-trip properties of the record parser. -/
def be32 (x : Nat) : List Nat :=
  [x / 16777216 % 256, x / 65536 % 256, x / 256 % 256, x % 256]

/-- Rust slice chunks with chunk size 20: consecutive 20-byte windows of the
buffer in order.  Note that slice chunks keeps a final shorter window when the
buffer length is not a multiple of 20; it does not drop the remainder. -/
def chunks20 {α : Type} : List α → List (List α)
  | b0 :: b1 :: b2 :: b3 :: b4 :: b5 :: b6 :: b7 :: b8 :: b9 ::
    b10 :: b11 :: b12 :: b13 :: b14 :: b15 :: b16 :: b17 :: b18 :: b19 :: rest =>
      [b0, b1, b2, b3, b4, b5, b6, b7, b8, b9,
       b10, b11, b12, b13, b14, b15, b16, b17, b18, b19] :: chunks20 rest
  | [] => []
  | l => [l]

/-- DukascopyService create_tick: decode one record from the leading 20 bytes
of the chunk.  The four big-endian reads at byte offsets 0, 4, 8, 12 and 16
succeed exactly when the chunk holds at least 20 bytes; on a shorter chunk the
Rust slice index 16..20 (or an earlier one) is out of bounds and the function
panics, modelled by none.  The time offset is added to the seconds-scale epoch
value with no unit conversion, prices are divided by 100000, and the two
volume fields are IEEE-754 single-precision values widened with no scaling. -/
def create_tick (millis_since_epoch : Int) (bytes : List Nat) : Option Tick :=
  match bytes with
  | b0 :: b1 :: b2 :: b3 :: b4 :: b5 :: b6 :: b7 :: b8 :: b9 ::
    b10 :: b11 :: b12 :: b13 :: b14 :: b15 :: b16 :: b17 :: b18 :: b19 :: _ =>
      some
        { time := millis_since_epoch + ((b0 * 16777216 + b1 * 65536 + b2 * 256 + b3 : Nat) : Int)
          ask := ((b4 * 16777216 + b5 * 65536 + b6 * 256 + b7 : Nat) : ℚ) / 100000
          bid := ((b8 * 16777216 + b9 * 65536 + b10 * 256 + b11 : Nat) : ℚ) / 100000
          ask_volume := f32ToRat (b12 * 16777216 + b13 * 65536 + b14 * 256 + b15)
          bid_volume := f32ToRat (b16 * 16777216 + b17 * 65536 + b18 * 256 + b19) }
  | _ => none

/-- Whole seconds since the Unix epoch of an instant given in nanoseconds,
matching unix_timestamp of the UTC-assumed datetime. -/
def unix_timestamp (t : Int) : Int := Int.fdiv t 1000000000

/-- DukascopyService buffer_to_ticks: split the decompressed buffer into
20-byte windows and decode each.  The local variable named millis_since_epoch
in the source actually holds whole seconds, as unix_timestamp returns seconds.
The mapM into Option records that a panic while decoding any window aborts the
whole collection. -/
def buffer_to_ticks (date : Int) (bytes : List Nat) : Option (List Tick) :=
  (chunks20 bytes).mapM (create_tick (unix_timestamp date))

/-- The lzma_rs decompressor is external to the repository; it is modelled as
an arbitrary function from the compressed bytes to either the decompressed
bytes or an opaque decoder error. -/
abbrev LzmaFn : Type := List Nat → Except Nat (List Nat)

/-- DukascopyService decompress_data: absent input yields an empty buffer with
no error; present bytes are handed to the lzma decoder, and a decoder failure
becomes a Decode error carrying the decoder's error as its cause. -/
def decompress_data (lzma : LzmaFn) (bytes : Option (List Nat)) : Except Error (List Nat) :=
  match bytes with
  | some b =>
      match lzma b with
      | Except.ok buf => Except.ok buf
      | Except.error e => Except.error { kind := Kind.Decode, inner := ErrorCause.lzma e }
  | none => Except.ok []

/-- Proleptic-Gregorian civil date, as a triple of year, month from 1 to 12 and
day from 1 to 31, of the day count relative to 1970-01-01; this recovers the
calendar fields the vendor time library stores. -/
def civilFromDays (z0 : Int) : Int × Nat × Nat :=
  let z : Int := z0 + 719468
  let era : Int := Int.fdiv z 146097
  let doe : Nat := (z - era * 146097).toNat
  let yoe : Nat := (doe - doe / 1460 + doe / 36524 - doe / 146096) / 365
  let doy : Nat := doe - (365 * yoe + yoe / 4 - yoe / 100)
  let mp : Nat := (5 * doy + 2) / 153
  let d : Nat := doy - (153 * mp + 2) / 5 + 1
  let m : Nat := if mp < 10 then mp + 3 else mp - 9
  (era * 400 + (yoe : Int) + (if m ≤ 2 then 1 else 0), m, d)

/-- Days since the Unix epoch of an instant in nanoseconds. -/
def daysFromEpoch (t : Int) : Int := Int.fdiv t 86400000000000

/-- Calendar year of an instant. -/
def yearOf (t : Int) : Int := (civilFromDays (daysFromEpoch t)).1

/-- Calendar month, 1 to 12, of an instant. -/
def monthOf (t : Int) : Nat := (civilFromDays (daysFromEpoch t)).2.1

/-- Day of month of an instant. -/
def dayOf (t : Int) : Nat := (civilFromDays (daysFromEpoch t)).2.2

/-- Hour of day, 0 to 23, of an instant. -/
def hourOf (t : Int) : Nat := (Int.emod (Int.fdiv t 3600000000000) 24).toNat

/-- Two-digit zero padding, as the Rust format specifier 02 renders values
below 100. -/
def pad2 (n : Nat) : String := if n < 10 then "0" ++ toString n else toString n

/-- DukascopyService generate_tick_download_url: the vendor path scheme.  The
month is emitted zero-indexed, January as 00, because the source subtracts one
from the month number before formatting; the instrument is inserted verbatim
with no escaping. -/
def generate_tick_download_url (base_url : String) (time : Int) (instrument : String) : String :=
  base_url ++ "/" ++ instrument ++ "/" ++ toString (yearOf time) ++ "/" ++
    pad2 (monthOf time - 1) ++ "/" ++ pad2 (dayOf time) ++ "/" ++
    pad2 (hourOf time) ++ "h_ticks.bi5"

/-- DukascopyService compute_tick_download_times: the whole-hour count of the
span from start to stop, computed by truncating division exactly as the Rust
Duration type does, first to whole seconds and then to whole hours, drives a
range that is mapped back to hour instants. -/
def compute_tick_download_times (start stop : Int) : List Int :=
  (List.range (Int.toNat (Int.tdiv (Int.tdiv (stop - start) 1000000000) 3600))).map
    (fun (e : Nat) => start + (e : Int) * 3600000000000)

/-- One invocation of reqwest get followed by reading the body, as the default
data supplier observes it: either a response whose body read yields bytes or
fails, or a transport error. -/
inductive GetOutcome where
  | success (bytesResult : Except ReqwestError (List Nat))
  | failure (e : ReqwestError)
deriving Repr

/-- ReqwestDataSupplier fetch from data_supplier.rs, as a function of the
transport outcome for the requested URL.  A body of length zero is normalized
to absence; a failed body read is a Network error.  A transport error is first
tested by the match guard that calls unwrap on its optional HTTP status: when
the error carries no status at all, for example when the server is not
reachable, that unwrap panics, modelled by none; a 404 status is normalized to
absence and any other status becomes a Network error carrying the cause. -/
def reqwestFetch (r : GetOutcome) : Option (Except Error (Option (List Nat))) :=
  match r with
  | GetOutcome.success (Except.ok bytes) =>
      if bytes.length = 0 then some (Except.ok none) else some (Except.ok (some bytes))
  | GetOutcome.success (Except.error e) =>
      some (Except.error { kind := Kind.Network, inner := ErrorCause.reqwest e })
  | GetOutcome.failure e =>
      match e.status with
      | none => none
      | some s =>
          if s = 404 then some (Except.ok none)
          else some (Except.error { kind := Kind.Network, inner := ErrorCause.reqwest e })

/-- The data supplier abstraction: a fetch function from URL to either absent,
present bytes, or an error. -/
abbrev FetchFn : Type := String → Except Error (Option (List Nat))

/-- Per-hour contribution to the output sequence, stated the way section 4.6 of
the specification describes it: a successful hour contributes its parsed ticks
in record order, each wrapped in ok, and a failed hour contributes exactly one
error item; none records a parser panic for that hour. -/
def hour_items (fetch : FetchFn) (lzma : LzmaFn) (base instrument : String) (date : Int) :
    Option (List (Except Error Tick)) :=
  match Except.bind (fetch (generate_tick_download_url base date instrument))
      (fun b => decompress_data lzma b) with
  | Except.ok buf => (buffer_to_ticks date buf).map (fun ts => ts.map Except.ok)
  | Except.error e => some [Except.error e]

/-- The closure passed to the final flat_map combinator of download_ticks: a
successful hour's buffer becomes its ticks each wrapped in ok, and a failed
hour becomes the single error item; none records a parser panic. -/
def flat_map_hour : Except Error (Int × List Nat) → Option (List (Except Error Tick))
  | Except.ok p => (buffer_to_ticks p.1 p.2).map (fun ts => ts.map Except.ok)
  | Except.error e => some [Except.error e]

/-- The stream combinator chain from download_ticks applied to the list of hour
instants, before the final flattening.  Each stream combinator becomes the
corresponding list operation: the first map pairs every hour with its URL, the
then step fetches and keeps the hour alongside the bytes, the next map
decompresses inside the result, and flat_map_hour produces every hour's items.
Draining the resulting stream is a mapM into Option, where none records a
panic raised while decoding some window. -/
def pipeline_chain (fetch : FetchFn) (lzma : LzmaFn) (base instrument : String)
    (dates : List Int) : Option (List (List (Except Error Tick))) :=
  (((dates.map (fun date => (date, generate_tick_download_url base date instrument))).map
      (fun p => Except.map (fun b => (p.1, b)) (fetch p.2))).map
      (fun r => Except.bind r (fun p =>
        Except.map (fun buf => (p.1, buf)) (decompress_data lzma p.2)))).mapM
    flat_map_hour

/-- The body of download_ticks: the combinator chain with the per-hour item
lists concatenated in hour order, as the flat_map combinator does. -/
def pipeline_items (fetch : FetchFn) (lzma : LzmaFn) (base instrument : String)
    (dates : List Int) : Option (List (Except Error Tick)) :=
  Option.map List.flatten (pipeline_chain fetch lzma base instrument dates)

/-- DukascopyService download_ticks: the two assertions demand that start and
stop both lie exactly on an hour boundary, that is, have zero minute, second
and sub-second components; a violation panics before the stream is even
constructed, modelled by none uniformly in the supplier.  Aligned bounds
produce the combinator chain over the enumerated hours. -/
def download_ticks (fetch : FetchFn) (lzma : LzmaFn) (base instrument : String)
    (start stop : Int) : Option (List (Except Error Tick)) :=
  if Int.emod start 3600000000000 = 0 ∧ Int.emod stop 3600000000000 = 0 then
    pipeline_items fetch lzma base instrument (compute_tick_download_times start stop)
  else none

/-! Helper lemmas shared by the verification theorems. -/

/-- Reassembling a 32-bit value from its four big-endian bytes recovers it. -/
theorem be32_recompose (x : Nat) (hx : x < 4294967296) :
    x / 16777216 % 256 * 16777216 + x / 65536 % 256 * 65536 + x / 256 % 256 * 256 + x % 256
      = x := by
  omega

/-- Truncating division of a nonpositive value by a nonnegative one is
nonpositive. -/
theorem tdiv_nonpos_left (a b : Int) (h : a ≤ 0) (hb : 0 ≤ b) : Int.tdiv a b ≤ 0 := by
  have h2 : 0 ≤ Int.tdiv (-a) b := Int.tdiv_nonneg (by omega) hb
  rw [Int.neg_tdiv] at h2
  omega

/-- A mapM over Option whose entries all succeed collects the mapped values. -/
theorem list_mapM_eq_some {α β : Type} (f : α → Option β) (g : α → β) :
    ∀ l : List α, (∀ a ∈ l, f a = some (g a)) → l.mapM f = some (l.map g) := by
  intro l
  induction l with
  | nil => intro _; rfl
  | cons a t ih =>
      intro hall
      rw [List.map_cons, List.mapM_cons, hall a (by simp),
        ih (fun x hx => hall x (by simp [hx]))]
      rfl

/-- The composition of the per-hour combinator steps equals the per-hour item
list of the specification. -/
theorem flat_map_hour_eq (fetch : FetchFn) (lzma : LzmaFn) (base instrument : String)
    (date : Int) :
    flat_map_hour (Except.bind (Except.map (fun b => (date, b))
        (fetch (generate_tick_download_url base date instrument)))
        (fun p => Except.map (fun buf => (p.1, buf)) (decompress_data lzma p.2))) =
      hour_items fetch lzma base instrument date := by
  cases hf : fetch (generate_tick_download_url base date instrument) with
  | error e => simp [hour_items, hf, Except.map, Except.bind, flat_map_hour]
  | ok b =>
      cases hd : decompress_data lzma b with
      | error e => simp [hour_items, hf, hd, Except.map, Except.bind, flat_map_hour]
      | ok buf => simp [hour_items, hf, hd, Except.map, Except.bind, flat_map_hour]

/-- The combinator chain of download_ticks computes, hour by hour, exactly the
per-hour item lists of the specification. -/
theorem pipeline_chain_eq (fetch : FetchFn) (lzma : LzmaFn) (base instrument : String) :
    ∀ dates : List Int,
      pipeline_chain fetch lzma base instrument dates =
        dates.mapM (hour_items fetch lzma base instrument) := by
  intro dates
  induction dates with
  | nil => rfl
  | cons d rest ih =>
      simp only [pipeline_chain, List.map_cons, List.mapM_cons] at ih ⊢
      rw [flat_map_hour_eq, ih]

/-- C1: every well-formed 20-byte record parses to the tick whose time is the
seconds-scale epoch value of the hour plus the big-endian u32 offset with no
millisecond-to-second conversion, whose ask and bid are the scaled u32 fields
divided by 100000, and whose volumes are the big-endian f32 fields widened
exactly with no scaling; in particular the record with offset 0x000000DA,
ask 0x0001B4C7, bid 0x0001B4C4 and volume bit patterns 0x3F8F5C29 and
0x3F400000 for hour 2020-03-12T01:00Z yields time 1583974800 plus 218,
ask 1.11815, bid 1.11812 and bid volume 0.75. -/
theorem parse_record_c1 (h : Int) (off askS bidS av bv : Nat)
    (hoff : off < 4294967296) (hask : askS < 4294967296) (hbid : bidS < 4294967296)
    (hav : av < 4294967296) (hbv : bv < 4294967296) :
    buffer_to_ticks h (be32 off ++ be32 askS ++ be32 bidS ++ be32 av ++ be32 bv) =
      some [{ time := unix_timestamp h + (off : Int),
              ask := (askS : ℚ) / 100000, bid := (bidS : ℚ) / 100000,
              ask_volume := f32ToRat av, bid_volume := f32ToRat bv }] ∧
    buffer_to_ticks 1583974800000000000
        (be32 0x000000DA ++ be32 0x0001B4C7 ++ be32 0x0001B4C4 ++
          be32 0x3F8F5C29 ++ be32 0x3F400000) =
      some [{ time := 1583974800 + 218, ask := 1.11815, bid := 1.11812,
              ask_volume := f32ToRat 0x3F8F5C29, bid_volume := 0.75 }] := by
  constructor
  · simp only [buffer_to_ticks, be32, List.cons_append, List.nil_append, chunks20,
      create_tick, List.mapM_cons, List.mapM_nil]
    rw [be32_recompose off hoff, be32_recompose askS hask, be32_recompose bidS hbid,
      be32_recompose av hav, be32_recompose bv hbv]
    rfl
  · norm_num [buffer_to_ticks, chunks20, be32, create_tick, unix_timestamp, f32ToRat,
      List.mapM.loop, Tick.mk.injEq, Int.fdiv]

/-- Witness for C1 at the concrete record of the specification scenario. -/
theorem parse_record_c1_witness :
    buffer_to_ticks 1583974800000000000
        (be32 218 ++ be32 111815 ++ be32 111812 ++ be32 1066228777 ++ be32 1061158912) =
      some [{ time := unix_timestamp 1583974800000000000 + ((218 : ℕ) : ℤ),
              ask := ((111815 : ℕ) : ℚ) / 100000, bid := ((111812 : ℕ) : ℚ) / 100000,
              ask_volume := f32ToRat 1066228777, bid_volume := f32ToRat 1061158912 }] :=
  (parse_record_c1 1583974800000000000 218 111815 111812 1066228777 1061158912
    (by norm_num) (by norm_num) (by norm_num) (by norm_num) (by norm_num)).1

/-- C2: the record parser does not silently discard a trailing partial window;
a buffer whose length is not a multiple of 20 ends in a short chunk, because
slice chunks keeps the remainder, and decoding that chunk panics, shown here
by evaluating the parser at a 21-byte buffer.  Buffers that are whole
multiples of 20 do decode to exactly one tick per window. -/
theorem chunked_parse_panics_c2 :
    chunks20 (List.replicate 21 (0 : Nat)) = [List.replicate 20 0, [0]] ∧
    buffer_to_ticks 0 (List.replicate 21 0) = none ∧
    (buffer_to_ticks 0 (List.replicate 40 0)).map List.length = some 2 := by
  exact ⟨by decide, by decide, by decide⟩

/-- C3: for an aligned request whose per-hour outcomes are given by items, the
output of download_ticks is exactly the concatenation, in hour order, of each
hour's items, where a successful hour contributes its ticks in decoded record
order and a failed hour contributes exactly one error item in its place; a
failure in one hour never prevents subsequent hours from contributing, and no
item is reordered, dropped or deduplicated. -/
theorem stream_concatenation_c3 (fetch : FetchFn) (lzma : LzmaFn) (base instrument : String)
    (start stop : Int) (items : Int → List (Except Error Tick))
    (ha : Int.emod start 3600000000000 = 0) (hb : Int.emod stop 3600000000000 = 0)
    (hall : ∀ d ∈ compute_tick_download_times start stop,
        hour_items fetch lzma base instrument d = some (items d)) :
    download_ticks fetch lzma base instrument start stop =
      some (List.flatMap (compute_tick_download_times start stop) items) := by
  unfold download_ticks
  rw [if_pos ⟨ha, hb⟩]
  unfold pipeline_items
  rw [pipeline_chain_eq, list_mapM_eq_some _ items _ hall]
  simp [List.flatMap]

/-- Witness for C3: a single-hour request whose fetch fails with a Network
error yields exactly that hour's single error item. -/
theorem stream_concatenation_c3_witness :
    download_ticks
        (fun _ => Except.error
          { kind := Kind.Network, inner := ErrorCause.reqwest { status := none, id := 0 } })
        (fun b => Except.ok b) "" "" 0 3600000000000 =
      some (List.flatMap (compute_tick_download_times 0 3600000000000)
        (fun _ => [Except.error
          { kind := Kind.Network, inner := ErrorCause.reqwest { status := none, id := 0 } }])) :=
  stream_concatenation_c3 _ _ "" "" 0 3600000000000 _ (by decide) (by decide)
    (fun _ _ => rfl)

/-- C4: for hour-aligned bounds with start below stop, the hour enumerator
produces exactly the sequence start, start plus one hour, and so on up to but
excluding stop, with one element per whole hour of the span; in particular the
range from 2020-03-12T00:00Z to 2020-03-12T03:00Z produces exactly the three
instants 00:00, 01:00 and 02:00 of that day. -/
theorem hour_enumeration_c4 (start stop : Int)
    (ha : Int.emod start 3600000000000 = 0) (hb : Int.emod stop 3600000000000 = 0)
    (hlt : start < stop) :
    compute_tick_download_times start stop =
      (List.range ((stop - start) / 3600000000000).toNat).map
        (fun (e : Nat) => start + (e : Int) * 3600000000000) ∧
    (compute_tick_download_times start stop).length =
      ((stop - start) / 3600000000000).toNat ∧
    compute_tick_download_times start stop ≠ [] ∧
    compute_tick_download_times 1583971200000000000 1583982000000000000 =
      [1583971200000000000, 1583974800000000000, 1583978400000000000] := by
  have hdvd : (3600000000000 : Int) ∣ (stop - start) :=
    Int.dvd_sub (Int.dvd_of_emod_eq_zero hb) (Int.dvd_of_emod_eq_zero ha)
  obtain ⟨m, hm⟩ := hdvd
  have key : Int.toNat (Int.tdiv (Int.tdiv (stop - start) 1000000000) 3600) =
      ((stop - start) / 3600000000000).toNat := by
    rw [hm, show (3600000000000 : Int) * m = 1000000000 * (3600 * m) by ring,
      Int.mul_tdiv_cancel_left _ (by norm_num), Int.mul_tdiv_cancel_left _ (by norm_num),
      show (1000000000 : Int) * (3600 * m) = 3600000000000 * m by ring,
      Int.mul_ediv_cancel_left _ (by norm_num)]
  have hmpos : 0 < m := by omega
  refine ⟨?_, ?_, ?_, by decide⟩
  · unfold compute_tick_download_times
    rw [key]
  · unfold compute_tick_download_times
    rw [key]
    simp
  · unfold compute_tick_download_times
    rw [key]
    have : ((stop - start) / 3600000000000).toNat ≠ 0 := by
      rw [hm, Int.mul_ediv_cancel_left _ (by norm_num)]
      omega
    simp [this, List.range_eq_nil, Nat.pos_of_ne_zero this]

/-- Witness for C4 at the concrete bounds of the specification scenario. -/
theorem hour_enumeration_c4_witness :
    compute_tick_download_times 1583971200000000000 1583982000000000000 =
      (List.range (((1583982000000000000 : Int) - 1583971200000000000) / 3600000000000).toNat).map
        (fun (e : Nat) => 1583971200000000000 + (e : Int) * 3600000000000) :=
  (hour_enumeration_c4 1583971200000000000 1583982000000000000
    (by decide) (by decide) (by decide)).1

/-- C5: the default data supplier normalizes an error bearing HTTP status 404
and a zero-length body to absence, wraps a failed body read and an error with
any other status into a Network error carrying the cause, but, contrary to the
claim that these are the only outcomes, it panics on a transport error that
carries no HTTP status at all, such as an unreachable server, because the 404
match guard calls unwrap on the absent status. -/
theorem default_supplier_c5 :
    reqwestFetch (GetOutcome.failure { status := none, id := 0 }) = none ∧
    reqwestFetch (GetOutcome.failure { status := some 404, id := 1 }) =
      some (Except.ok none) ∧
    reqwestFetch (GetOutcome.success (Except.ok [])) = some (Except.ok none) ∧
    reqwestFetch (GetOutcome.success (Except.ok [7])) = some (Except.ok (some [7])) ∧
    reqwestFetch (GetOutcome.failure { status := some 500, id := 3 }) =
      some (Except.error
        { kind := Kind.Network, inner := ErrorCause.reqwest { status := some 500, id := 3 } }) ∧
    reqwestFetch (GetOutcome.success (Except.error { status := none, id := 4 })) =
      some (Except.error
        { kind := Kind.Network, inner := ErrorCause.reqwest { status := none, id := 4 } }) :=
  ⟨rfl, rfl, rfl, rfl, rfl, rfl⟩

/-- C6: calling download_ticks with a start or stop that is not exactly on an
hour boundary panics on the alignment assertions before the stream, and hence
any fetch, exists; the result is none, not a recoverable error item, and it is
none uniformly in the supplier and decompressor, so no fetch outcome can
influence it. -/
theorem misaligned_rejected_c6 (fetch : FetchFn) (lzma : LzmaFn) (base instrument : String)
    (start stop : Int)
    (h : ¬ (Int.emod start 3600000000000 = 0 ∧ Int.emod stop 3600000000000 = 0)) :
    download_ticks fetch lzma base instrument start stop = none := by
  unfold download_ticks
  rw [if_neg h]

/-- Witness for C6: a start of 00:15 is rejected. -/
theorem misaligned_rejected_c6_witness :
    download_ticks (fun _ => Except.ok none) (fun b => Except.ok b) "" ""
      900000000000 3600000000000 = none :=
  misaligned_rejected_c6 _ _ "" "" 900000000000 3600000000000 (by decide)

/-- C7: the URL builder produces exactly the base, the instrument inserted
verbatim with no escaping, the year, the zero-indexed two-digit month, the
two-digit day and the two-digit hour joined by slashes and ending in the
h_ticks.bi5 suffix; January emits 00 and December emits 11, shown at a January
instant, a December instant, the specification's March example and an
instrument string containing spaces, dots and slashes. -/
theorem url_scheme_c7 (base instrument : String) (t : Int) :
    generate_tick_download_url base t instrument =
      base ++ "/" ++ instrument ++ "/" ++ toString (yearOf t) ++ "/" ++
        pad2 (monthOf t - 1) ++ "/" ++ pad2 (dayOf t) ++ "/" ++
        pad2 (hourOf t) ++ "h_ticks.bi5" ∧
    generate_tick_download_url "https://x" 1583974800000000000 "EURGBP" =
      "https://x/EURGBP/2020/02/12/01h_ticks.bi5" ∧
    monthOf 1609830000000000000 = 1 ∧
    generate_tick_download_url "b" 1609830000000000000 "EURGBP" =
      "b/EURGBP/2021/00/05/07h_ticks.bi5" ∧
    monthOf 946681200000000000 = 12 ∧
    generate_tick_download_url "b" 946681200000000000 "A" =
      "b/A/1999/11/31/23h_ticks.bi5" ∧
    generate_tick_download_url "b" 1583974800000000000 "a b/../c" =
      "b/a b/../c/2020/02/12/01h_ticks.bi5" :=
  ⟨rfl, by decide, by decide, by decide, by decide, by decide, by decide⟩

/-- C8: an absent fetch decompresses to the empty buffer with no error, the
empty buffer parses to zero ticks, and such an hour contributes no item at all
to the output sequence; conversely present bytes the decoder rejects always
become a Decode error carrying the decoder's cause. -/
theorem absent_and_decode_c8 (fetch : FetchFn) (lzma : LzmaFn) (base instrument : String)
    (d : Int) (bytes : List Nat) (e : Nat)
    (hf : fetch (generate_tick_download_url base d instrument) = Except.ok none)
    (he : lzma bytes = Except.error e) :
    decompress_data lzma none = Except.ok [] ∧
    buffer_to_ticks d [] = some [] ∧
    hour_items fetch lzma base instrument d = some [] ∧
    decompress_data lzma (some bytes) =
      Except.error { kind := Kind.Decode, inner := ErrorCause.lzma e } := by
  refine ⟨rfl, rfl, ?_, ?_⟩
  · simp [hour_items, hf, Except.bind, decompress_data, buffer_to_ticks, chunks20,
      List.mapM.loop]
  · simp [decompress_data, he]

/-- Witness for C8 with a supplier that reports absence and a decoder that
rejects its input. -/
theorem absent_and_decode_c8_witness :
    decompress_data (fun _ => Except.error 5) none = Except.ok [] ∧
    buffer_to_ticks 0 [] = some [] ∧
    hour_items (fun _ => Except.ok none) (fun _ => Except.error 5) "" "" 0 = some [] ∧
    decompress_data (fun _ => Except.error 5) (some [1]) =
      Except.error { kind := Kind.Decode, inner := ErrorCause.lzma 5 } :=
  absent_and_decode_c8 (fun _ => Except.ok none) (fun _ => Except.error 5) "" "" 0 [1] 5
    rfl rfl

/-- C10: for hour-aligned bounds with stop at or before start, the hour
enumeration is empty and download_ticks yields the empty sequence, with no
item of either kind and no influence from the supplier. -/
theorem empty_range_c10 (fetch : FetchFn) (lzma : LzmaFn) (base instrument : String)
    (start stop : Int)
    (ha : Int.emod start 3600000000000 = 0) (hb : Int.emod stop 3600000000000 = 0)
    (hle : stop ≤ start) :
    compute_tick_download_times start stop = [] ∧
    download_ticks fetch lzma base instrument start stop = some [] := by
  have h0 : Int.toNat (Int.tdiv (Int.tdiv (stop - start) 1000000000) 3600) = 0 := by
    have d1 : Int.tdiv (stop - start) 1000000000 ≤ 0 :=
      tdiv_nonpos_left _ _ (by omega) (by norm_num)
    have d2 : Int.tdiv (Int.tdiv (stop - start) 1000000000) 3600 ≤ 0 :=
      tdiv_nonpos_left _ _ d1 (by norm_num)
    omega
  have hempty : compute_tick_download_times start stop = [] := by
    unfold compute_tick_download_times
    rw [h0]
    rfl
  refine ⟨hempty, ?_⟩
  unfold download_ticks
  rw [if_pos ⟨ha, hb⟩]
  unfold pipeline_items
  rw [hempty]
  rfl

/-- Witness for C10 with stop one hour before start. -/
theorem empty_range_c10_witness :
    compute_tick_download_times 3600000000000 0 = [] ∧
    download_ticks (fun _ => Except.ok none) (fun b => Except.ok b) "" ""
      3600000000000 0 = some [] :=
  empty_range_c10 (fun _ => Except.ok none) (fun b => Except.ok b) "" ""
    3600000000000 0 (by decide) (by decide) (by decide)

end Dukascopy
